import Mathlib

set_option maxRecDepth 40000

/-!
Verification of the blockchain ledger core of the secure voting system
(src/blockchain.py and src/wallet.py), as a shallow embedding.

Modelling conventions:
- Python exceptions are modelled with the Except monad over PyErr; an
  uncaught exception is an Except.error result (a crash of the caller).
- The SHA-256 digest and the ECDSA backend (python-ecdsa) are external
  libraries, modelled as abstract function parameters: sha256 is any
  function from strings to strings; the signing backend sign takes a
  private key and a hex hash and returns some signature on success or
  none when the library raised (blockchain.py catches every exception
  inside sign_block and returns None); the verification backend verify
  takes the stored public key, the stored signature and the data and
  returns a Bool, with every library exception folded into false, which
  is exactly what the try/except wrappers in the source do.
- The canonical serialization json.dumps(..., sort_keys=True) used by
  Block.calculate_hash is modelled concretely, byte for byte, including
  the default Python separators (a comma followed by a space between
  items, a colon followed by a space after keys).
- The persisted file is modelled by FileState: a missing file, a file
  whose JSON parsing fails, or a parsed JSON array of records whose
  fields may be absent (a dict access on an absent field is a KeyError).
-/

/-- Python exceptions that the modelled code can raise. -/
inductive PyErr where
  | valueError (msg : String)
  | keyError (key : String)
  | indexError
deriving DecidableEq

/-- One vote transaction dict as built by Blockchain.new_transaction:
keys sender, recipient, vote, timestamp. -/
structure VoteTx where
  sender : String
  recipient : String
  vote : String
  timestamp : String
deriving DecidableEq

/-- A transaction dict stored in a block: either the genesis marker dict
with the single key message, or a vote dict. -/
inductive Tx where
  | genesisMsg (message : String)
  | vote (v : VoteTx)
deriving DecidableEq

/-- Escape of one character inside a JSON string literal, as json.dumps
renders the ASCII-printable domain used by this program. -/
def escapeChar (c : Char) : String :=
  if c = '"' then "\\\""
  else if c = '\\' then "\\\\"
  else if c = '\n' then "\\n"
  else if c = '\t' then "\\t"
  else if c = '\r' then "\\r"
  else String.singleton c

/-- A JSON string literal. -/
def jsonString (s : String) : String :=
  "\"" ++ String.join (s.data.map escapeChar) ++ "\""

/-- json.dumps of one transaction dict with sort_keys=True and the
default separators. Keys of a vote dict in sorted order:
recipient, sender, timestamp, vote. -/
def encodeTx : Tx → String
  | Tx.genesisMsg m => "\x7b\"message\": " ++ jsonString m ++ "\x7d"
  | Tx.vote v =>
      "\x7b\"recipient\": " ++ jsonString v.recipient ++
      ", \"sender\": " ++ jsonString v.sender ++
      ", \"timestamp\": " ++ jsonString v.timestamp ++
      ", \"vote\": " ++ jsonString v.vote ++ "\x7d"

/-- json.dumps of the transactions list. -/
def encodeTxList (l : List Tx) : String :=
  "[" ++ String.intercalate ", " (l.map encodeTx) ++ "]"

/-- The exact string built by Block.calculate_hash:
json.dumps of the dict with keys index, timestamp, transactions,
previous_hash, proof, host_public_key, with sort_keys=True, so in the
order host_public_key, index, previous_hash, proof, timestamp,
transactions, with Python's default separators. -/
def canonicalString (index : Nat) (timestamp : String) (transactions : List Tx)
    (previous_hash : String) (proof : Nat) (host_public_key : String) : String :=
  "\x7b\"host_public_key\": " ++ jsonString host_public_key ++
  ", \"index\": " ++ toString index ++
  ", \"previous_hash\": " ++ jsonString previous_hash ++
  ", \"proof\": " ++ toString proof ++
  ", \"timestamp\": " ++ jsonString timestamp ++
  ", \"transactions\": " ++ encodeTxList transactions ++ "\x7d"

/-- A Block object: the six content fields set by the constructor, plus
the stored hash and the stored host signature (None when signing was
attempted and the backend failed, or when overwritten by from_dict). -/
structure Block where
  index : Nat
  timestamp : String
  transactions : List Tx
  previous_hash : String
  proof : Nat
  host_public_key : String
  hash : String
  host_signature : Option String
deriving DecidableEq

/-- Block.calculate_hash: the digest of the canonical serialization of
the six content fields; the stored hash and the signature are not part
of the serialized dict. -/
def Block.calculate_hash (sha256 : String → String) (b : Block) : String :=
  sha256 (canonicalString b.index b.timestamp b.transactions b.previous_hash
            b.proof b.host_public_key)

/-- Block.sign_block: raises ValueError when the private key is falsy
(None or the empty string); otherwise signs self.hash with the backend,
returning None when the backend raised (the except branch). -/
def Block.sign_block (sign : String → String → Option String) (b : Block)
    (host_private_key : Option String) : Except PyErr (Option String) :=
  match host_private_key with
  | none => Except.error (PyErr.valueError "Host Private Key required to sign the block.")
  | some k =>
      if k == "" then
        Except.error (PyErr.valueError "Host Private Key required to sign the block.")
      else
        Except.ok (sign k b.hash)

/-- Block.verify_signature: verifies the stored signature with the
stored public key against the freshly recomputed hash; a None signature
(bytes.fromhex raises, caught) and every backend exception give false. -/
def Block.verify_signature (sha256 : String → String)
    (verify : String → String → String → Bool) (b : Block) : Bool :=
  match b.host_signature with
  | none => false
  | some sig => verify b.host_public_key sig (Block.calculate_hash sha256 b)

/-- Block.__init__: sets the six content fields, computes the hash, and
signs it immediately; a ValueError from sign_block propagates, so
construction fails whenever the private key is falsy. -/
def Block.init (sha256 : String → String) (sign : String → String → Option String)
    (index : Nat) (timestamp : String) (previous_hash : String)
    (transactions : List Tx) (host_public_key : String)
    (host_private_key : Option String) (proof : Nat) : Except PyErr Block :=
  let b0 : Block :=
    { index := index, timestamp := timestamp, transactions := transactions,
      previous_hash := previous_hash, proof := proof,
      host_public_key := host_public_key, hash := "", host_signature := none }
  let b1 := { b0 with hash := Block.calculate_hash sha256 b0 }
  match Block.sign_block sign b1 host_private_key with
  | Except.error e => Except.error e
  | Except.ok sig => Except.ok { b1 with host_signature := sig }

/-- One record of the persisted JSON array, after json.load: each field
may be absent (dict access then raises KeyError). The host_signature
field, when present, may hold JSON null. -/
structure RawRecord where
  index? : Option Nat
  timestamp? : Option String
  previous_hash? : Option String
  transactions? : Option (List Tx)
  host_signature? : Option (Option String)
  host_public_key? : Option String
  hash? : Option String
  proof? : Option Nat
deriving DecidableEq

/-- Python dict access data[key]: KeyError when the key is absent. -/
def reqKey {α : Type} (key : String) : Option α → Except PyErr α
  | none => Except.error (PyErr.keyError key)
  | some a => Except.ok a

/-- Block.to_dict: every field present. -/
def Block.to_dict (b : Block) : RawRecord :=
  { index? := some b.index, timestamp? := some b.timestamp,
    previous_hash? := some b.previous_hash, transactions? := some b.transactions,
    host_signature? := some b.host_signature,
    host_public_key? := some b.host_public_key, hash? := some b.hash,
    proof? := some b.proof }

/-- Block.from_dict: reads the constructor arguments from the dict in
the written order (KeyError on a missing key, data.get for proof with
default 0), calls the constructor with host_private_key=None, then
overwrites the hash and the signature with the stored values. -/
def Block.from_dict (sha256 : String → String) (sign : String → String → Option String)
    (data : RawRecord) : Except PyErr Block := do
  let index ← reqKey "index" data.index?
  let timestamp ← reqKey "timestamp" data.timestamp?
  let previous_hash ← reqKey "previous_hash" data.previous_hash?
  let transactions ← reqKey "transactions" data.transactions?
  let host_public_key ← reqKey "host_public_key" data.host_public_key?
  let proof := data.proof?.getD 0
  let block ← Block.init sha256 sign index timestamp previous_hash transactions
                host_public_key none proof
  let hash ← reqKey "hash" data.hash?
  let host_signature ← reqKey "host_signature" data.host_signature?
  pure { block with hash := hash, host_signature := host_signature }

/-- The state of the persisted ledger file as seen by load_chain. -/
inductive FileState where
  | missing
  | invalidJson
  | parsed (records : List RawRecord)
deriving DecidableEq

/-- The in-memory Blockchain state: authority key material, the chain,
and the pending transaction buffer. -/
structure Blockchain where
  host_public_key : String
  host_private_key : Option String
  chain : List Block
  current_transactions : List Tx
deriving DecidableEq

/-- Blockchain.save_chain: the JSON array written to the file. -/
def save_chain (chain : List Block) : List RawRecord :=
  chain.map Block.to_dict

/-- Blockchain.load_chain: a missing file (FileNotFoundError) or a file
whose JSON parsing fails (JSONDecodeError) gives the empty list; any
other exception raised while rebuilding the blocks, such as the
ValueError from sign_block or a KeyError on a malformed record, is not
in the except clause and propagates. -/
def load_chain (sha256 : String → String) (sign : String → String → Option String)
    (file : FileState) : Except PyErr (List Block) :=
  match file with
  | FileState.missing => Except.ok []
  | FileState.invalidJson => Except.ok []
  | FileState.parsed records => records.mapM (Block.from_dict sha256 sign)

/-- Blockchain.create_genesis_block: index 0, previous_hash the sentinel
string 0, the literal marker payload, signed with the authority key;
appends and saves. -/
def create_genesis_block (sha256 : String → String)
    (sign : String → String → Option String) (now : String) (bc : Blockchain) :
    Except PyErr (Blockchain × FileState) :=
  match Block.init sha256 sign 0 now "0"
          [Tx.genesisMsg "Genesis Block - Blockchain initialized"]
          bc.host_public_key bc.host_private_key 0 with
  | Except.error e => Except.error e
  | Except.ok genesis =>
      let bc2 := { bc with chain := bc.chain ++ [genesis] }
      Except.ok (bc2, FileState.parsed (save_chain bc2.chain))

/-- Blockchain.__init__: loads the chain from the file (an exception
from load_chain propagates and construction crashes), starts with an
empty pending buffer, and creates the genesis block when the loaded
chain is empty. The returned FileState is the file after construction. -/
def Blockchain.init (sha256 : String → String)
    (sign : String → String → Option String) (now : String)
    (host_public_key : String) (host_private_key : Option String)
    (file : FileState) : Except PyErr (Blockchain × FileState) :=
  match load_chain sha256 sign file with
  | Except.error e => Except.error e
  | Except.ok chain =>
      let bc : Blockchain :=
        { host_public_key := host_public_key, host_private_key := host_private_key,
          chain := chain, current_transactions := [] }
      if bc.chain.isEmpty then
        create_genesis_block sha256 sign now bc
      else
        Except.ok (bc, file)

/-- Blockchain.new_transaction: appends the vote dict to the pending
buffer, then returns last_block.index + 1 (an IndexError on an empty
chain happens after the buffer mutation). -/
def Blockchain.new_transaction (bc : Blockchain) (sender recipient vote : String)
    (now : String) : Blockchain × Except PyErr Nat :=
  let bc2 := { bc with current_transactions := bc.current_transactions ++
                 [Tx.vote { sender := sender, recipient := recipient,
                            vote := vote, timestamp := now }] }
  match bc2.chain.getLast? with
  | none => (bc2, Except.error PyErr.indexError)
  | some last => (bc2, Except.ok (last.index + 1))

/-- Blockchain.new_block: builds the new Block first (last_block raises
IndexError on an empty chain; the constructor raises ValueError on a
falsy key; both happen before any state mutation), then resets the
pending buffer, appends the block and saves. The result is the state
after the call, the file write performed (none when the call raised),
and the returned block or the exception. -/
def Blockchain.new_block (sha256 : String → String)
    (sign : String → String → Option String) (now : String) (proof : Nat)
    (bc : Blockchain) : Blockchain × Option FileState × Except PyErr Block :=
  match bc.chain.getLast? with
  | none => (bc, none, Except.error PyErr.indexError)
  | some last =>
      match Block.init sha256 sign bc.chain.length now last.hash
              bc.current_transactions bc.host_public_key bc.host_private_key proof with
      | Except.error e => (bc, none, Except.error e)
      | Except.ok block =>
          let bc2 := { bc with current_transactions := ([] : List Tx), chain := bc.chain ++ [block] }
          (bc2, some (FileState.parsed (save_chain bc2.chain)), Except.ok block)

/-- One iteration of the Blockchain.is_valid loop: the three checks on a
block and its predecessor, in order, each returning false on violation. -/
def blockCheck (sha256 : String → String)
    (verify : String → String → String → Bool)
    (previous_block current_block : Block) : Bool :=
  (current_block.hash == Block.calculate_hash sha256 current_block) &&
  (current_block.previous_hash == previous_block.hash) &&
  Block.verify_signature sha256 verify current_block

/-- The loop of Blockchain.is_valid from the block after prev onwards. -/
def validFrom (sha256 : String → String)
    (verify : String → String → String → Bool) : Block → List Block → Bool
  | _, [] => true
  | prev, b :: rest =>
      blockCheck sha256 verify prev b && validFrom sha256 verify b rest

/-- Blockchain.is_valid: iterates i over range(1, len(chain)) and checks
every block against its predecessor; true when no check fails. -/
def Blockchain.is_valid (sha256 : String → String)
    (verify : String → String → String → Bool) (bc : Blockchain) : Bool :=
  match bc.chain with
  | [] => true
  | g :: rest => validFrom sha256 verify g rest

namespace Wallet

/-- Modelled wallet.verify_signature from src/wallet.py: decodes the
public key (decodeOk, the VerifyingKey.from_string step), hashes the
data with SHA-256, and runs the backend digest verification
(verifyDigestEx models vk.verify_digest, which returns a Bool or
raises); every exception is caught and gives false. -/
def verify_signature (sha256 : String → String) (decodeOk : String → Bool)
    (verifyDigestEx : String → String → String → Except PyErr Bool)
    (public_key data_to_verify signature : String) : Bool :=
  if decodeOk public_key then
    match verifyDigestEx public_key signature (sha256 data_to_verify) with
    | Except.ok b => b
    | Except.error _ => false
  else
    false

end Wallet

/-! Concrete instantiations of the abstract backends, used by the
closed-form evaluations below. idHash stands in for the digest (it is
injective, so distinct canonical encodings give distinct digests);
catSign produces a signature by pairing key and hash; vTrue is a
verification backend that accepts everything. -/

def idHash : String → String := fun s => s

def catSign : String → String → Option String := fun k h => some (k ++ "|" ++ h)

def noneSign : String → String → Option String := fun _ _ => none

def vTrue : String → String → String → Bool := fun _ _ _ => true

def genesisTx : Tx := Tx.genesisMsg "Genesis Block - Blockchain initialized"

/-- A concrete well-formed genesis block under the idHash digest. -/
def exB0 : Block :=
  { index := 0, timestamp := "t0", transactions := [genesisTx],
    previous_hash := "0", proof := 0, host_public_key := "pk",
    hash := canonicalString 0 "t0" [genesisTx] "0" 0 "pk",
    host_signature := some "sig0" }

def exTx1 : Tx := Tx.vote { sender := "alice", recipient := "cand1", vote := "yes", timestamp := "t1" }

def exTx2 : Tx := Tx.vote { sender := "bob", recipient := "cand2", vote := "yes", timestamp := "t2" }

/-- A concrete well-formed second block linked to exB0. -/
def exB1 : Block :=
  { index := 1, timestamp := "t1", transactions := [exTx1],
    previous_hash := exB0.hash, proof := 0, host_public_key := "pk",
    hash := canonicalString 1 "t1" [exTx1] exB0.hash 0 "pk",
    host_signature := some "sig1" }

/-- A concrete two-block chain that is valid under idHash and vTrue. -/
def exBC : Blockchain :=
  { host_public_key := "pk", host_private_key := some "sk",
    chain := [exB0, exB1], current_transactions := [] }


/-- A default block for total indexing with List.getD; the indices used
below are always in range, so the default never matters. -/
def emptyBlock : Block :=
  { index := 0, timestamp := "", transactions := [], previous_hash := "",
    proof := 0, host_public_key := "", hash := "", host_signature := none }

/-- The block produced by the constructor at the concrete input of the
c7 witness. -/
def exB7 : Block :=
  { index := 1, timestamp := "t", transactions := [], previous_hash := "ph",
    proof := 0, host_public_key := "pk",
    hash := canonicalString 1 "t" [] "ph" 0 "pk",
    host_signature := some ("sk" ++ "|" ++ canonicalString 1 "t" [] "ph" 0 "pk") }

/-- The chain state after an in-place mutation of the transactions
field of the block at index j: the stored hash and every other field of
that block and all other blocks are unchanged. -/
def tamperAt (bc : Blockchain) (j : Nat) (t' : List Tx) : Blockchain :=
  { bc with chain := bc.chain.set j ({ bc.chain.getD j emptyBlock with transactions := t' }) }

/-- The genesis block of the concrete chain with a tampered payload;
its stored hash field is unchanged, as after an in-place mutation. -/
def exB0tampered : Block := { exB0 with transactions := [Tx.genesisMsg "tampered"] }

/-- The chain state after queuing tx1 then tx2 with new_transaction on
a genesis-only chain, as in the spec scenario for c6. -/
def bcQueued : Blockchain :=
  ((({ host_public_key := "pk", host_private_key := some "sk", chain := [exB0],
       current_transactions := [] } : Blockchain).new_transaction
      "alice" "cand1" "yes" "t1").1.new_transaction "bob" "cand2" "yes" "t2").1

/-- A genesis-only chain with an empty pending buffer. -/
def bcGenesisOnly : Blockchain :=
  { host_public_key := "pk", host_private_key := some "sk", chain := [exB0],
    current_transactions := [] }

/-- The blockchain of the c4 witness: a key-less state, as in from_dict
style construction; new_block on it raises the ValueError. -/
def bcNoKey : Blockchain :=
  { host_public_key := "pk", host_private_key := none, chain := [exB0],
    current_transactions := [] }

/-- A chain with one pending transaction and a usable key. -/
def bcPend : Blockchain :=
  { host_public_key := "pk", host_private_key := some "sk", chain := [exB0],
    current_transactions := [exTx1] }

/-- The block appended when the signing backend fails: host_signature
is None because sign_block caught the backend exception. -/
def blkSwallowed : Block :=
  { index := 1, timestamp := "t1", transactions := [exTx1],
    previous_hash := exB0.hash, proof := 0, host_public_key := "pk",
    hash := canonicalString 1 "t1" [exTx1] exB0.hash 0 "pk",
    host_signature := none }

/-- A persisted file that parses as JSON but whose single record is an
empty object: every dict access on it raises KeyError. -/
def corruptRecord : RawRecord :=
  { index? := none, timestamp? := none, previous_hash? := none,
    transactions? := none, host_signature? := none, host_public_key? := none,
    hash? := none, proof? := none }

/-! Helper lemmas. -/

theorem getD_set_self {α : Type} (l : List α) (i : Nat) (a d : α)
    (h : i < l.length) : (l.set i a).getD i d = a := by
  induction l generalizing i with
  | nil => simp at h
  | cons x xs ih =>
      cases i with
      | zero => simp
      | succ j => simpa using ih j (by simpa using h)

/-- The loop of is_valid succeeds exactly when every pairwise check
along the walk succeeds. -/
theorem validFrom_eq_true_iff (s : String → String)
    (v : String → String → String → Bool) (l : List Block) (prev : Block) :
    validFrom s v prev l = true ↔
      ∀ i, i < l.length →
        blockCheck s v ((prev :: l).getD i emptyBlock) (l.getD i emptyBlock) = true := by
  induction l generalizing prev with
  | nil => simp [validFrom]
  | cons b rest ih =>
      simp only [validFrom, Bool.and_eq_true, ih b]
      constructor
      · rintro ⟨h0, hrest⟩ i hi
        cases i with
        | zero => simpa using h0
        | succ j => simpa using hrest j (by simpa using Nat.lt_of_succ_lt_succ hi)
      · intro h
        refine ⟨by simpa using h 0 (by simp), fun j hj => ?_⟩
        simpa using h (j + 1) (by simpa using Nat.succ_lt_succ hj)

/-- is_valid succeeds exactly when every consecutive pair of blocks of
the chain passes the three checks. -/
theorem is_valid_eq_true_iff (s : String → String)
    (v : String → String → String → Bool) (bc : Blockchain) :
    Blockchain.is_valid s v bc = true ↔
      ∀ i, i + 1 < bc.chain.length →
        blockCheck s v (bc.chain.getD i emptyBlock)
          (bc.chain.getD (i + 1) emptyBlock) = true := by
  unfold Blockchain.is_valid
  cases hc : bc.chain with
  | nil => simp
  | cons g rest =>
      rw [validFrom_eq_true_iff s v rest g]
      constructor
      · intro h i hi
        simpa using h i (by simpa using Nat.lt_of_succ_lt_succ hi)
      · intro h i hi
        simpa using h i (by simpa using Nat.succ_lt_succ hi)

/-! Claim theorems. -/

/-- C1: the round-trip claim fails on the code: loading what save_chain
wrote raises for every chain with at least one block, because
Block.from_dict calls the constructor with host_private_key=None and
sign_block then raises ValueError, which load_chain does not catch
(its except clause covers only FileNotFoundError and JSONDecodeError).
So load(persist(chain)) crashes instead of reproducing the chain. -/
theorem c1_roundtrip_load_fails (sha256 : String → String)
    (sign : String → String → Option String) (b : Block) (ch : List Block) :
    load_chain sha256 sign (FileState.parsed (save_chain (b :: ch))) =
      Except.error (PyErr.valueError "Host Private Key required to sign the block.") := rfl

/-- C5: evaluation of the code at the failing input of the claim: the
Block constructor with no private key does not produce an unsigned
block; it raises ValueError for every combination of the remaining
arguments. (When a non-empty key is supplied, the stored signature is
the backend signature of the computed hash, per c7 part one and the
definition of Block.init.) -/
theorem c5_missing_key_constructor_raises (sha256 : String → String)
    (sign : String → String → Option String) (index : Nat)
    (timestamp previous_hash : String) (transactions : List Tx)
    (host_public_key : String) (proof : Nat) :
    Block.init sha256 sign index timestamp previous_hash transactions
      host_public_key none proof =
      Except.error (PyErr.valueError "Host Private Key required to sign the block.") := rfl

/-- C3: is_valid walks the chain from index 1 and returns true exactly
when, for every block after the first, (a) the stored hash equals the
freshly recomputed hash, (b) previous_hash equals the prior block's
stored hash, and (c) the stored signature verifies under the stored
public key against the recomputed hash (verify_signature recomputes the
hash); it returns false as soon as any check is violated. -/
theorem c3_is_valid_characterization (sha256 : String → String)
    (verify : String → String → String → Bool) (bc : Blockchain) :
    Blockchain.is_valid sha256 verify bc = true ↔
      ∀ i, i + 1 < bc.chain.length →
        ((bc.chain.getD (i + 1) emptyBlock).hash =
            Block.calculate_hash sha256 (bc.chain.getD (i + 1) emptyBlock)
          ∧ (bc.chain.getD (i + 1) emptyBlock).previous_hash =
            (bc.chain.getD i emptyBlock).hash
          ∧ Block.verify_signature sha256 verify (bc.chain.getD (i + 1) emptyBlock) = true) := by
  rw [is_valid_eq_true_iff]
  constructor
  · intro h i hi
    have hb := h i hi
    simp only [blockCheck, Bool.and_eq_true, beq_iff_eq] at hb
    exact ⟨hb.1.1, hb.1.2, hb.2⟩
  · intro h i hi
    have hb := h i hi
    simp only [blockCheck, Bool.and_eq_true, beq_iff_eq]
    exact ⟨⟨hb.1, hb.2.1⟩, hb.2.2⟩

/-- Witness for c3: the characterization applied to the concrete valid
two-block chain, instantiated at the pair (block 0, block 1). -/
theorem c3_is_valid_characterization_applied :
    (exBC.chain.getD 1 emptyBlock).hash =
        Block.calculate_hash idHash (exBC.chain.getD 1 emptyBlock)
      ∧ (exBC.chain.getD 1 emptyBlock).previous_hash =
        (exBC.chain.getD 0 emptyBlock).hash
      ∧ Block.verify_signature idHash vTrue (exBC.chain.getD 1 emptyBlock) = true :=
  (c3_is_valid_characterization idHash vTrue exBC).mp (by decide) 0 (by decide)

/-- C7 (amended): part one, every block built by the constructor stores
as its hash the digest of the canonical key-sorted serialization of
exactly the six content fields (index, timestamp, transactions,
previous_hash, proof, host_public_key); part two, the recomputed hash
ignores the stored signature and the stored hash, so blocks with the
same logical content hash identically. The encoding is key-sorted and
deterministic but NOT whitespace-free (see the counterexample). -/
theorem c7_hash_fields_and_independence (sha256 : String → String) :
    (∀ (sign : String → String → Option String) (index : Nat)
        (timestamp previous_hash : String) (transactions : List Tx)
        (host_public_key : String) (host_private_key : Option String)
        (proof : Nat) (b : Block),
        Block.init sha256 sign index timestamp previous_hash transactions
            host_public_key host_private_key proof = Except.ok b →
        b.hash = sha256 (canonicalString index timestamp transactions
                           previous_hash proof host_public_key))
    ∧ (∀ (b : Block) (sig : Option String) (h' : String),
        Block.calculate_hash sha256 { b with host_signature := sig, hash := h' } =
          Block.calculate_hash sha256 b) := by
  constructor
  · intro sign index timestamp previous_hash transactions host_public_key
      host_private_key proof b hok
    simp only [Block.init] at hok
    split at hok
    · exact absurd hok (by simp)
    · cases hok
      rfl
  · intro b sig h'
    rfl

/-- Witness for c7: the constructor applied at a concrete input. -/
theorem c7_hash_fields_and_independence_applied :
    Block.init idHash catSign 1 "t" "ph" [] "pk" (some "sk") 0 = Except.ok exB7
    ∧ exB7.hash = idHash (canonicalString 1 "t" [] "ph" 0 "pk") :=
  ⟨rfl, (c7_hash_fields_and_independence idHash).1 catSign 1 "t" "ph" [] "pk"
    (some "sk") 0 exB7 rfl⟩

/-- Counterexample for C7 as stated: the encoding whose digest the
constructor stores is not whitespace-free; json.dumps with the default
separators puts a space after every colon and comma, and that very
string is what calculate_hash feeds to SHA-256 (shown here with the
identity standing in for the digest). -/
theorem c7_encoding_has_whitespace :
    Block.calculate_hash idHash exB0 = canonicalString 0 "t0" [genesisTx] "0" 0 "pk"
    ∧ ' ' ∈ (canonicalString 0 "t0" [genesisTx] "0" 0 "pk").data := by
  exact ⟨rfl, by decide⟩

/-- C8: wallet.verify_signature is a total Boolean function of its
inputs; it returns true exactly when the public key decodes to a valid
curve point and the backend digest verification of the signature
against the SHA-256 digest of exactly that data succeeds with true;
every backend exception (malformed signature, wrong-curve point, bad
hex, BadSignatureError on digest mismatch) yields false, never a raised
exception. -/
theorem c8_verify_total_iff (sha256 : String → String)
    (decodeOk : String → Bool)
    (verifyDigestEx : String → String → String → Except PyErr Bool)
    (public_key data signature : String) :
    Wallet.verify_signature sha256 decodeOk verifyDigestEx public_key data signature = true ↔
      (decodeOk public_key = true
       ∧ verifyDigestEx public_key signature (sha256 data) = Except.ok true) := by
  unfold Wallet.verify_signature
  cases hd : decodeOk public_key with
  | false => simp [hd]
  | true =>
      simp only [if_true, hd, true_and]
      cases hv : verifyDigestEx public_key signature (sha256 data) with
      | error e => simp
      | ok b => cases b <;> simp

/-- Witness for c8: a backend that accepts, applied at concrete
strings. -/
theorem c8_verify_total_iff_applied :
    (fun (_ : String) => true) "pk" = true
    ∧ (fun (_ _ _ : String) => (Except.ok true : Except PyErr Bool)) "pk" "sig" (idHash "data") = Except.ok true :=
  (c8_verify_total_iff idHash (fun _ => true) (fun _ _ _ => Except.ok true)
    "pk" "data" "sig").mp rfl

/-- C2 (amended): tamper detection holds for every non-genesis block:
on a valid chain, replacing the transactions payload of the block at
index j0+1 by any payload whose canonical encoding hashes differently
makes is_valid return false (the stored-hash check fails there).
Tampering with the genesis block, by contrast, goes undetected, see the
counterexample. -/
theorem c2_tamper_nongenesis_invalidates (s : String → String)
    (v : String → String → String → Bool) (bc : Blockchain) (j0 : Nat)
    (t' : List Tx) (hj : j0 + 1 < bc.chain.length)
    (hvalid : Blockchain.is_valid s v bc = true)
    (hdiff : s (canonicalString (bc.chain.getD (j0 + 1) emptyBlock).index
                  (bc.chain.getD (j0 + 1) emptyBlock).timestamp t'
                  (bc.chain.getD (j0 + 1) emptyBlock).previous_hash
                  (bc.chain.getD (j0 + 1) emptyBlock).proof
                  (bc.chain.getD (j0 + 1) emptyBlock).host_public_key)
              ≠ Block.calculate_hash s (bc.chain.getD (j0 + 1) emptyBlock)) :
    Blockchain.is_valid s v (tamperAt bc (j0 + 1) t') = false := by
  have hA := (is_valid_eq_true_iff s v bc).mp hvalid j0 hj
  simp only [blockCheck, Bool.and_eq_true, beq_iff_eq] at hA
  cases hres : Blockchain.is_valid s v (tamperAt bc (j0 + 1) t') with
  | false => rfl
  | true =>
      exfalso
      have h2 := (is_valid_eq_true_iff s v _).mp hres j0
        (by simpa [tamperAt] using hj)
      have hget : (tamperAt bc (j0 + 1) t').chain.getD (j0 + 1) emptyBlock =
          { bc.chain.getD (j0 + 1) emptyBlock with transactions := t' } :=
        getD_set_self _ _ _ _ hj
      simp only [blockCheck, Bool.and_eq_true, beq_iff_eq, hget] at h2
      apply hdiff
      calc s (canonicalString (bc.chain.getD (j0 + 1) emptyBlock).index
                (bc.chain.getD (j0 + 1) emptyBlock).timestamp t'
                (bc.chain.getD (j0 + 1) emptyBlock).previous_hash
                (bc.chain.getD (j0 + 1) emptyBlock).proof
                (bc.chain.getD (j0 + 1) emptyBlock).host_public_key)
          = Block.calculate_hash s
              ({ bc.chain.getD (j0 + 1) emptyBlock with transactions := t' }) := rfl
        _ = ({ bc.chain.getD (j0 + 1) emptyBlock with transactions := t' } : Block).hash :=
              h2.1.1.symm
        _ = (bc.chain.getD (j0 + 1) emptyBlock).hash := rfl
        _ = Block.calculate_hash s (bc.chain.getD (j0 + 1) emptyBlock) := hA.1.1

/-- Witness for c2 (amended): tampering with block 1 of the concrete
valid two-block chain is detected. -/
theorem c2_tamper_nongenesis_invalidates_applied :
    Blockchain.is_valid idHash vTrue (tamperAt exBC 1 [Tx.genesisMsg "x"]) = false :=
  c2_tamper_nongenesis_invalidates idHash vTrue exBC 0 [Tx.genesisMsg "x"]
    (by decide) (by decide) (by decide)

/-- Counterexample for C2 as stated: the claim quantifies over ANY one
block, but is_valid starts its loop at index 1 and never recomputes the
genesis block's hash; replacing the genesis payload by a payload with a
different digest leaves is_valid true. -/
theorem c2_genesis_tamper_undetected :
    Blockchain.is_valid idHash vTrue exBC = true
    ∧ exB0tampered.transactions ≠ exB0.transactions
    ∧ Block.calculate_hash idHash exB0tampered ≠ Block.calculate_hash idHash exB0
    ∧ Blockchain.is_valid idHash vTrue (tamperAt exBC 0 [Tx.genesisMsg "tampered"]) = true := by
  decide

/-- Full characterization of a successful new_block call: with a
non-empty chain and a non-falsy private key, exactly one block is
appended, the pending buffer is cleared, the new chain is saved, and
the new block carries the expected fields. -/
theorem new_block_ok_eq (s : String → String) (g : String → String → Option String)
    (now : String) (proof : Nat) (bc : Blockchain) (last : Block) (k : String)
    (hlast : bc.chain.getLast? = some last)
    (hk : bc.host_private_key = some k) (hk2 : (k == "") = false) :
    ∃ b : Block,
      Blockchain.new_block s g now proof bc =
        ({ bc with current_transactions := ([] : List Tx), chain := bc.chain ++ [b] },
         some (FileState.parsed (save_chain (bc.chain ++ [b]))), Except.ok b)
      ∧ b.index = bc.chain.length ∧ b.timestamp = now
      ∧ b.transactions = bc.current_transactions
      ∧ b.previous_hash = last.hash ∧ b.proof = proof
      ∧ b.host_public_key = bc.host_public_key := by
  unfold Blockchain.new_block
  rw [hlast]
  simp only [Block.init, Block.sign_block, hk, hk2, Bool.false_eq_true, if_false]
  exact ⟨_, rfl, rfl, rfl, rfl, rfl, rfl, rfl⟩

/-- C6: one new_block (mine) call on a chain with a usable authority
key appends exactly one new block, whose transactions field is exactly
the pending buffer in its queued FIFO order, clears the pending buffer,
and saves the grown chain to the file. -/
theorem c6_mine_drains_buffer (s : String → String)
    (g : String → String → Option String) (now : String) (proof : Nat)
    (bc : Blockchain) (last : Block) (k : String)
    (hlast : bc.chain.getLast? = some last)
    (hk : bc.host_private_key = some k) (hk2 : (k == "") = false) :
    ∃ b : Block,
      Blockchain.new_block s g now proof bc =
        ({ bc with current_transactions := ([] : List Tx), chain := bc.chain ++ [b] },
         some (FileState.parsed (save_chain (bc.chain ++ [b]))), Except.ok b)
      ∧ b.transactions = bc.current_transactions := by
  obtain ⟨b, h1, hidx, hts, htx, hprev, hproof, hpub⟩ :=
    new_block_ok_eq s g now proof bc last k hlast hk hk2
  exact ⟨b, h1, htx⟩

/-- Witness for c6: queue tx1, queue tx2, mine: exactly one block is
appended, it contains both queued transactions in order, and the
buffer is empty afterward. -/
theorem c6_mine_drains_buffer_applied :
    (∃ b : Block,
      Blockchain.new_block idHash catSign "t3" 0 bcQueued =
        ({ bcQueued with current_transactions := ([] : List Tx), chain := bcQueued.chain ++ [b] },
         some (FileState.parsed (save_chain (bcQueued.chain ++ [b]))), Except.ok b)
      ∧ b.transactions = bcQueued.current_transactions)
    ∧ bcQueued.current_transactions = [exTx1, exTx2] :=
  ⟨c6_mine_drains_buffer idHash catSign "t3" 0 bcQueued exB0 "sk" rfl rfl rfl, rfl⟩

/-- C10: new_block with an empty pending buffer is not a no-op: it
still appends exactly one block with an empty transactions list, index
equal to the previous chain length, previous_hash equal to the prior
last block's stored hash, and saves the grown chain. -/
theorem c10_empty_mine_produces_block (s : String → String)
    (g : String → String → Option String) (now : String) (proof : Nat)
    (bc : Blockchain) (last : Block) (k : String)
    (hlast : bc.chain.getLast? = some last)
    (hk : bc.host_private_key = some k) (hk2 : (k == "") = false)
    (hpend : bc.current_transactions = []) :
    ∃ b : Block,
      Blockchain.new_block s g now proof bc =
        ({ bc with current_transactions := ([] : List Tx), chain := bc.chain ++ [b] },
         some (FileState.parsed (save_chain (bc.chain ++ [b]))), Except.ok b)
      ∧ b.transactions = [] ∧ b.index = bc.chain.length
      ∧ b.previous_hash = last.hash := by
  obtain ⟨b, h1, hidx, hts, htx, hprev, hproof, hpub⟩ :=
    new_block_ok_eq s g now proof bc last k hlast hk hk2
  exact ⟨b, h1, hpend ▸ htx, hidx, hprev⟩

/-- Witness for c10: mining with nothing queued on the concrete
genesis-only chain still produces one empty block. -/
theorem c10_empty_mine_produces_block_applied :
    ∃ b : Block,
      Blockchain.new_block idHash catSign "t4" 0 bcGenesisOnly =
        ({ bcGenesisOnly with current_transactions := ([] : List Tx), chain := bcGenesisOnly.chain ++ [b] },
         some (FileState.parsed (save_chain (bcGenesisOnly.chain ++ [b]))), Except.ok b)
      ∧ b.transactions = [] ∧ b.index = bcGenesisOnly.chain.length
      ∧ b.previous_hash = exB0.hash :=
  c10_empty_mine_produces_block idHash catSign "t4" 0 bcGenesisOnly exB0 "sk"
    rfl rfl rfl rfl

/-- C4 (amended): whenever new_block raises (the IndexError of
last_block on an empty chain, or the ValueError of sign_block when the
private key is falsy), the exception is raised before any state
mutation, so the in-memory chain and the pending buffer are unchanged
and nothing is written to the file. When the signing BACKEND fails with
a key present, however, the failure is swallowed and the block is still
appended: see the counterexample. -/
theorem c4_error_leaves_chain_unchanged (s : String → String)
    (g : String → String → Option String) (now : String) (proof : Nat)
    (bc bc2 : Blockchain) (fw : Option FileState) (e : PyErr)
    (h : Blockchain.new_block s g now proof bc = (bc2, fw, Except.error e)) :
    bc2 = bc ∧ fw = none := by
  unfold Blockchain.new_block at h
  split at h
  · exact ⟨(congrArg Prod.fst h).symm, (congrArg (fun p => p.2.1) h).symm⟩
  · split at h
    · exact ⟨(congrArg Prod.fst h).symm, (congrArg (fun p => p.2.1) h).symm⟩
    · exact absurd (congrArg (fun p => p.2.2) h) (by simp)

/-- Witness for c4 (amended): at the concrete key-less state, new_block
raises the ValueError and the state and file are untouched. -/
theorem c4_error_leaves_chain_unchanged_applied :
    Blockchain.new_block idHash catSign "t" 0 bcNoKey =
      (bcNoKey, none, Except.error (PyErr.valueError "Host Private Key required to sign the block."))
    ∧ (bcNoKey = bcNoKey ∧ (none : Option FileState) = none) :=
  ⟨rfl, c4_error_leaves_chain_unchanged idHash catSign "t" 0 bcNoKey bcNoKey none
    (PyErr.valueError "Host Private Key required to sign the block.") rfl⟩

/-- Counterexample for C4 as stated: when signing fails inside the
backend (every exception there is caught by sign_block, which returns
None), the new block IS appended, unsigned, the pending buffer is
dropped into it, and the chain is persisted: the operation does not
leave the in-memory chain unchanged. -/
theorem c4_swallowed_sign_failure_appends :
    Blockchain.new_block idHash noneSign "t1" 0 bcPend =
      ({ bcPend with current_transactions := ([] : List Tx), chain := [exB0, blkSwallowed] },
       some (FileState.parsed (save_chain [exB0, blkSwallowed])), Except.ok blkSwallowed)
    ∧ blkSwallowed.host_signature = none
    ∧ [exB0, blkSwallowed] ≠ bcPend.chain :=
  ⟨rfl, rfl, by decide⟩

/-- C9 (amended): constructing the Blockchain on a missing file
(FileNotFoundError) or on a file whose JSON parsing fails
(JSONDecodeError, which covers truncation) does not crash: load_chain
returns the empty list, silently and without logging, and a fresh
genesis-only chain is created, whose genesis block has index 0 and the
previous_hash sentinel 0, and is saved. A corrupt file that still
parses as JSON is NOT covered: see the counterexample. -/
theorem c9_missing_or_invalid_json_fallback (s : String → String)
    (g : String → String → Option String) (now pub k : String)
    (hk2 : (k == "") = false) (file : FileState)
    (hfile : file = FileState.missing ∨ file = FileState.invalidJson) :
    ∃ gb : Block,
      Blockchain.init s g now pub (some k) file =
        Except.ok ({ host_public_key := pub, host_private_key := some k, chain := [gb], current_transactions := [] },
                   FileState.parsed [Block.to_dict gb])
      ∧ gb.index = 0 ∧ gb.previous_hash = "0" := by
  rcases hfile with h | h <;> subst h <;>
    · simp only [Blockchain.init, load_chain, create_genesis_block, Block.init,
        Block.sign_block, hk2, Bool.false_eq_true, if_false, List.isEmpty_nil,
        if_true, List.nil_append, save_chain, List.map]
      exact ⟨_, rfl, rfl, rfl⟩

/-- Witness for c9 (amended): construction on a concrete missing file
yields a fresh genesis-only chain. -/
theorem c9_missing_or_invalid_json_fallback_applied :
    ∃ gb : Block,
      Blockchain.init idHash catSign "t0" "pk" (some "sk") FileState.missing =
        Except.ok ({ host_public_key := "pk", host_private_key := some "sk", chain := [gb], current_transactions := [] },
                   FileState.parsed [Block.to_dict gb])
      ∧ gb.index = 0 ∧ gb.previous_hash = "0" :=
  c9_missing_or_invalid_json_fallback idHash catSign "t0" "pk" "sk" rfl
    FileState.missing (Or.inl rfl)

/-- Counterexample for C9 as stated: a corrupt persisted file that is
still syntactically valid JSON is not caught by the except clause of
load_chain (which names only FileNotFoundError and JSONDecodeError), so
constructing the Blockchain raises KeyError instead of falling back to
a fresh genesis chain. -/
theorem c9_json_corrupt_record_crashes :
    Blockchain.init idHash catSign "t0" "pk" (some "sk")
      (FileState.parsed [corruptRecord]) =
      Except.error (PyErr.keyError "index") := rfl
